import Mathlib

/-!
Verification development for the Side Project Launcher repository
(`side_project_launcher.py` and `side_project_launcher_langgraph.py`).

The repository is glue code around two external services:
a configuration-and-targeting service (LaunchDarkly AI Configs) and a
language-model inference service (Anthropic via LangChain).  Both are
modelled as abstract function parameters (`ConfigService`, `ModelService`),
so every theorem quantifies over all possible behaviours of the external
collaborators.  Observable effects (model invocations, file writes) are
made explicit in the return values of the stage functions.
-/

namespace SideProject

/-- Snapshot returned by the external AI-config service for one named
configuration: the enabled flag, the model identifier and the instruction
text.  Mirrors the fields of the SDK's agent config object that the source
reads (`config.enabled`, `config.model.name`, `config.instructions`).
The usage tracker is an external side effect and carries no data read by
this code. -/
structure AgentConfig where
  enabled : Bool
  modelName : String
  instructions : String
deriving Repr, DecidableEq

/-- Modelled from the spec: the external SDK's targeting context
(`ldclient.Context`), an identity key plus named attributes.  The SDK is a
third-party library outside this repository; per the spec a context is
only valid when the identifier is non-empty. -/
structure LDContext where
  key : String
  attributes : List (String × String)
deriving Repr, DecidableEq

/-- Modelled from the spec: validity of a targeting context as enforced by
the external SDK builder — the user identifier must be non-empty. -/
def LDContext.valid (c : LDContext) : Bool :=
  !c.key.isEmpty

/-- One invocation of the language-model service: the model identifier the
client was constructed with, the system prompt and the user prompt. -/
structure ModelCall where
  modelName : String
  systemPrompt : String
  userPrompt : String
deriving Repr, DecidableEq

/-- One file write performed by the output writer: directory, file name
and full file content. -/
structure FileWrite where
  dir : String
  name : String
  content : String
deriving Repr, DecidableEq

/-- Abstract behaviour of the external config service: named
configuration, targeting context and template-variable bag to the
returned config.  The fallback-on-failure policy
(`AIAgentConfigDefault(enabled=False)`) lives inside the external call,
so a failing service is represented by a function returning a disabled
config. -/
abbrev ConfigService := String → LDContext → List (String × String) → AgentConfig

/-- Abstract behaviour of the external language-model service: an
invocation to the returned response text (`response.content`). -/
abbrev ModelService := ModelCall → String

/-- Embedding of `build_context(user_id, **attributes)` (identical in both
source files): builds a targeting context from the identifier, setting
each attribute on the builder. -/
def build_context (user_id : String) (attributes : List (String × String)) : LDContext :=
  { key := user_id, attributes := attributes }

/-- Embedding of `get_agent_config(config_key, context, variables)` from
`side_project_launcher_langgraph.py`: delegates to the external service
with the disabled fallback folded into the service abstraction. -/
def get_agent_config (svc : ConfigService) (config_key : String) (context : LDContext)
    (vars : List (String × String)) : AgentConfig :=
  svc config_key context vars

/-- Embedding of the `SideProjectState` TypedDict from
`side_project_launcher_langgraph.py`. -/
structure SideProjectState where
  user_id : String
  idea : String
  target_audience : String
  problem_statement : String
  unique_value_prop : String
  expected_users : String
  budget : String
  team_expertise : String
  idea_validation : String
  landing_page_copy : String
  tech_stack : String
  output_dir : String
deriving Repr, DecidableEq

/-- Result of running one pipeline node: the returned state plus the
observable external effects (model invocations and file writes) the node
performed. -/
structure StageOut where
  state : SideProjectState
  calls : List ModelCall
  writes : List FileWrite
deriving Repr, DecidableEq

/-- Embedding of `idea_validator_node`: fetch the `idea-validator` config
for a context built from `state["user_id"]`; if enabled, invoke the model
with the fetched instructions as system prompt and the fixed user prompt,
storing the response in `idea_validation`; otherwise store
`"Config not enabled"`. -/
def idea_validator_node (svc : ConfigService) (llm : ModelService)
    (state : SideProjectState) : StageOut :=
  let context := build_context state.user_id []
  let config := get_agent_config svc "idea-validator" context
    [("idea", state.idea), ("target_audience", state.target_audience),
     ("problem_statement", state.problem_statement)]
  if config.enabled then
    let call : ModelCall :=
      { modelName := config.modelName, systemPrompt := config.instructions,
        userPrompt := "Please validate this idea and provide your analysis." }
    let response := llm call
    { state := { state with idea_validation := response }, calls := [call], writes := [] }
  else
    { state := { state with idea_validation := "Config not enabled" }, calls := [], writes := [] }

/-- Embedding of `landing_page_writer_node`, analogous to the validator
node but for the `landing-page-writer` config and the
`landing_page_copy` field. -/
def landing_page_writer_node (svc : ConfigService) (llm : ModelService)
    (state : SideProjectState) : StageOut :=
  let context := build_context state.user_id []
  let config := get_agent_config svc "landing-page-writer" context
    [("idea", state.idea), ("target_audience", state.target_audience),
     ("unique_value_prop", state.unique_value_prop)]
  if config.enabled then
    let call : ModelCall :=
      { modelName := config.modelName, systemPrompt := config.instructions,
        userPrompt := "Please write the landing page copy." }
    let response := llm call
    { state := { state with landing_page_copy := response }, calls := [call], writes := [] }
  else
    { state := { state with landing_page_copy := "Config not enabled" }, calls := [], writes := [] }

/-- Embedding of `tech_stack_advisor_node`, analogous to the validator
node but for the `tech-stack-advisor` config and the `tech_stack`
field. -/
def tech_stack_advisor_node (svc : ConfigService) (llm : ModelService)
    (state : SideProjectState) : StageOut :=
  let context := build_context state.user_id []
  let config := get_agent_config svc "tech-stack-advisor" context
    [("expected_users", state.expected_users), ("budget", state.budget),
     ("team_expertise", state.team_expertise)]
  if config.enabled then
    let call : ModelCall :=
      { modelName := config.modelName, systemPrompt := config.instructions,
        userPrompt := "Please recommend a tech stack." }
    let response := llm call
    { state := { state with tech_stack := response }, calls := [call], writes := [] }
  else
    { state := { state with tech_stack := "Config not enabled" }, calls := [], writes := [] }

/-- The f-string body of `00-summary.md` written by `save_outputs_node`,
with `datetime.now().strftime` abstracted as the `timestamp` argument. -/
def summaryText (idea target_audience problem_statement unique_value_prop
    expected_users budget team_expertise timestamp : String) : String :=
  "# Side Project Summary\n\n## Idea\n" ++ idea ++
  "\n\n## Target Audience\n" ++ target_audience ++
  "\n\n## Problem Statement\n" ++ problem_statement ++
  "\n\n## Unique Value Proposition\n" ++ unique_value_prop ++
  "\n\n## Technical Requirements\n- Expected Users: " ++ expected_users ++
  "\n- Budget: " ++ budget ++
  "\n- Team Expertise: " ++ team_expertise ++
  "\n\n---\nGenerated: " ++ timestamp ++ "\n"

/-- Embedding of `save_outputs_node`: writes the three stage-result files
and the summary file into `state["output_dir"]`, in the order the source
performs the writes, and returns the state unchanged.  The run timestamp
(`datetime.now()`) is the `timestamp` parameter. -/
def save_outputs_node (timestamp : String) (state : SideProjectState) : StageOut :=
  { state := state
    calls := []
    writes :=
      [ { dir := state.output_dir, name := "01-idea-validation.md",
          content := "# Idea Validation\n\n" ++ state.idea_validation },
        { dir := state.output_dir, name := "02-landing-page.md",
          content := "# Landing Page Copy\n\n" ++ state.landing_page_copy },
        { dir := state.output_dir, name := "03-tech-stack.md",
          content := "# Tech Stack Recommendation\n\n" ++ state.tech_stack },
        { dir := state.output_dir, name := "00-summary.md",
          content := summaryText state.idea state.target_audience
            state.problem_statement state.unique_value_prop
            state.expected_users state.budget state.team_expertise timestamp } ] }

/-- Direct sequential composition of the four node functions, threading
the state through each node in pipeline order and concatenating the
observable effects. -/
def runPipelineDirect (svc : ConfigService) (llm : ModelService) (timestamp : String)
    (st : SideProjectState) : StageOut :=
  let o1 := idea_validator_node svc llm st
  let o2 := landing_page_writer_node svc llm o1.state
  let o3 := tech_stack_advisor_node svc llm o2.state
  let o4 := save_outputs_node timestamp o3.state
  { state := o4.state
    calls := o1.calls ++ o2.calls ++ o3.calls ++ o4.calls
    writes := o1.writes ++ o2.writes ++ o3.writes ++ o4.writes }

/-- A compiled state graph: named nodes, edges (with `none` standing for
the END sentinel) and an entry point.  Models the object returned by
`StateGraph(...).compile()`. -/
structure CompiledGraph where
  nodes : List (String × (SideProjectState → StageOut))
  edges : List (String × Option String)
  entry : String

/-- Step-by-step execution of a compiled graph: run the current node,
accumulate its effects, and follow the outgoing edge until END.  Fuel
bounds the number of steps so execution is total; `none` means the graph
was malformed or the fuel ran out. -/
def execFrom (nodes : List (String × (SideProjectState → StageOut)))
    (edges : List (String × Option String)) :
    Nat → String → SideProjectState → List ModelCall → List FileWrite → Option StageOut
  | 0, _, _, _, _ => none
  | Nat.succ fuel, cur, s, cs, ws =>
    match nodes.lookup cur with
    | none => none
    | some f =>
      let o := f s
      match edges.lookup cur with
      | none => none
      | some none => some { state := o.state, calls := cs ++ o.calls, writes := ws ++ o.writes }
      | some (some nxt) => execFrom nodes edges fuel nxt o.state (cs ++ o.calls) (ws ++ o.writes)

/-- Graph invocation (`app.invoke(initial_state)`): execute from the entry
point with enough fuel to visit every node once plus the END step. -/
def CompiledGraph.invoke (g : CompiledGraph) (s : SideProjectState) : Option StageOut :=
  execFrom g.nodes g.edges (g.nodes.length + 1) g.entry s [] []

/-- Embedding of `build_side_project_graph()`: the four named nodes, the
entry point at `validate_idea`, and the linear chain of edges ending at
END. -/
def build_side_project_graph (svc : ConfigService) (llm : ModelService)
    (timestamp : String) : CompiledGraph :=
  { nodes :=
      [ ("validate_idea", idea_validator_node svc llm),
        ("write_landing_page", landing_page_writer_node svc llm),
        ("recommend_stack", tech_stack_advisor_node svc llm),
        ("save_outputs", save_outputs_node timestamp) ]
    edges :=
      [ ("validate_idea", some "write_landing_page"),
        ("write_landing_page", some "recommend_stack"),
        ("recommend_stack", some "save_outputs"),
        ("save_outputs", none) ]
    entry := "validate_idea" }

/-- Model of Python's `str.isalnum` on a single character, exact on the
ASCII range the source's sample inputs use. -/
def pyIsAlnum (c : Char) : Bool :=
  c.isAlphanum

/-- Embedding of the folder-name computation in `get_user_input`:
`idea.lower()[:30].replace(" ", "-").replace("/", "-")` followed by
keeping only alphanumeric characters and hyphens. -/
def makeFolderName (idea : String) : String :=
  let lowered := (idea.toList.map Char.toLower).take 30
  let hyphened := lowered.map (fun c => if c = ' ' || c = '/' then '-' else c)
  String.mk (hyphened.filter (fun c => pyIsAlnum c || c = '-'))

/-- Embedding of `get_user_input`: the seven interactive answers (each
`input(...).strip()` is modelled as `.trim` of the raw entry) plus the
run timestamp (`datetime.now().strftime("%Y%m%d-%H%M")`) become the
initial pipeline state, with all three output fields empty and
`output_dir = "output/<slug>-<timestamp>"`. -/
def get_user_input (rawIdea rawTargetAudience rawProblemStatement rawUniqueValueProp
    rawExpectedUsers rawBudget rawTeamExpertise timestamp : String) : SideProjectState :=
  let idea := rawIdea.trim
  { user_id := "user-" ++ timestamp
    idea := idea
    target_audience := rawTargetAudience.trim
    problem_statement := rawProblemStatement.trim
    unique_value_prop := rawUniqueValueProp.trim
    expected_users := rawExpectedUsers.trim
    budget := rawBudget.trim
    team_expertise := rawTeamExpertise.trim
    idea_validation := ""
    landing_page_copy := ""
    tech_stack := ""
    output_dir := "output/" ++ makeFolderName idea ++ "-" ++ timestamp }

/-- Embedding of `get_agent_config(config_key, user_id, variables)` from
`side_project_launcher.py` (the direct-call script), which builds the
context itself from the bare user id. -/
def get_agent_config_launcher (svc : ConfigService) (config_key user_id : String)
    (vars : List (String × String)) : AgentConfig :=
  svc config_key (build_context user_id []) vars

/-- Embedding of `validate_idea` from `side_project_launcher.py`: fetch
the `idea-validator` config and return it when enabled, `None` otherwise.
The function performs no model invocation and no state mutation. -/
def validate_idea (svc : ConfigService) (user_id idea target_audience problem_statement :
    String) : Option AgentConfig :=
  let config := get_agent_config_launcher svc "idea-validator" user_id
    [("idea", idea), ("target_audience", target_audience),
     ("problem_statement", problem_statement)]
  if config.enabled then some config else none

/-- Embedding of `write_landing_page` from `side_project_launcher.py`. -/
def write_landing_page (svc : ConfigService) (user_id idea target_audience unique_value_prop :
    String) : Option AgentConfig :=
  let config := get_agent_config_launcher svc "landing-page-writer" user_id
    [("idea", idea), ("target_audience", target_audience),
     ("unique_value_prop", unique_value_prop)]
  if config.enabled then some config else none

/-- Embedding of `recommend_tech_stack` from `side_project_launcher.py`. -/
def recommend_tech_stack (svc : ConfigService) (user_id expected_users budget team_expertise :
    String) : Option AgentConfig :=
  let config := get_agent_config_launcher svc "tech-stack-advisor" user_id
    [("expected_users", expected_users), ("budget", budget),
     ("team_expertise", team_expertise)]
  if config.enabled then some config else none

/-- Observable outcome of running the `__main__` block of
`side_project_launcher.py`: the three fetched configs plus the model
invocations and file writes the script performs. -/
structure LauncherRun where
  idea_config : Option AgentConfig
  landing_config : Option AgentConfig
  stack_config : Option AgentConfig
  calls : List ModelCall
  writes : List FileWrite
deriving Repr, DecidableEq

/-- Embedding of the `__main__` sequence of `side_project_launcher.py`:
it calls the three fetchers with the hard-coded sample inputs and prints
the fetched instructions.  The script contains no model invocation and no
file write, so its observable `calls` and `writes` are empty by
construction. -/
def launcher_main (svc : ConfigService) : LauncherRun :=
  let user_id := "user-123"
  let idea := "AI-powered recipe app that suggests meals from fridge photos"
  let target_audience := "busy parents who hate meal planning"
  let problem_statement := "no time to plan meals, food goes to waste"
  { idea_config := validate_idea svc user_id idea target_audience problem_statement
    landing_config := write_landing_page svc user_id idea target_audience
      "See what's in your fridge, get tonight's dinner in seconds"
    stack_config := recommend_tech_stack svc user_id
      "10,000 monthly active users" "$500/month" "Python, React, some AWS experience"
    calls := []
    writes := [] }

/-- The sample initial state: the fixed sample answers from the tutorial
(the inputs hard-coded in `side_project_launcher.py`), threaded through
`get_user_input` with a fixed run timestamp. -/
def sampleInitialState : SideProjectState :=
  get_user_input "AI-powered recipe app that suggests meals from fridge photos"
    "busy parents who hate meal planning"
    "no time to plan meals, food goes to waste"
    "See what's in your fridge, get tonight's dinner in seconds"
    "10,000 monthly active users" "$500/month"
    "Python, React, some AWS experience" "20250101-0000"

/-- A config service that enables every named configuration with a fixed
model name and instruction text; used to exercise the enabled branch on
concrete inputs. -/
def allEnabledSvc : ConfigService :=
  fun _ _ _ => { enabled := true, modelName := "claude-sonnet", instructions := "inst" }

/-- A config service that disables every named configuration; used to
exercise the disabled branch on concrete inputs. -/
def allDisabledSvc : ConfigService :=
  fun _ _ _ => { enabled := false, modelName := "", instructions := "" }

/-- A model service that returns the fixed response `"ok"` to every
invocation. -/
def constLLM : ModelService :=
  fun _ => "ok"

/-! Shared helper lemmas. -/

/-- Invoking the compiled linear graph equals the direct sequential
composition of the four node functions, for every initial state and every
behaviour of the external services. -/
theorem invoke_eq_runPipelineDirect (svc : ConfigService) (llm : ModelService)
    (ts : String) (st : SideProjectState) :
    (build_side_project_graph svc llm ts).invoke st =
      some (runPipelineDirect svc llm ts st) := by
  simp [CompiledGraph.invoke, build_side_project_graph, execFrom, runPipelineDirect,
    List.lookup]

/-- The validator node only rewrites the `idea_validation` field. -/
theorem idea_validator_state_shape (svc : ConfigService) (llm : ModelService)
    (st : SideProjectState) :
    ∃ v, (idea_validator_node svc llm st).state = { st with idea_validation := v } := by
  simp only [idea_validator_node]
  split
  · exact ⟨_, rfl⟩
  · exact ⟨_, rfl⟩

/-- The landing-page node only rewrites the `landing_page_copy` field. -/
theorem landing_page_writer_state_shape (svc : ConfigService) (llm : ModelService)
    (st : SideProjectState) :
    ∃ v, (landing_page_writer_node svc llm st).state = { st with landing_page_copy := v } := by
  simp only [landing_page_writer_node]
  split
  · exact ⟨_, rfl⟩
  · exact ⟨_, rfl⟩

/-- The tech-stack node only rewrites the `tech_stack` field. -/
theorem tech_stack_advisor_state_shape (svc : ConfigService) (llm : ModelService)
    (st : SideProjectState) :
    ∃ v, (tech_stack_advisor_node svc llm st).state = { st with tech_stack := v } := by
  simp only [tech_stack_advisor_node]
  split
  · exact ⟨_, rfl⟩
  · exact ⟨_, rfl⟩

/-! Claim theorems. -/

/-- C1, counterexample: the claim as stated is false.  With every
configuration enabled and a model service that always answers, the
four-node graph run on the sample initial state performs three model
invocations and four file writes, while the `__main__` sequence of
`side_project_launcher.py` performs zero model invocations and zero file
writes — the two orchestrations do not produce identical observable
behaviour. -/
theorem launcher_script_differs_from_graph_run :
    ((build_side_project_graph allEnabledSvc constLLM "2025-01-01 00:00").invoke
        sampleInitialState).map StageOut.calls ≠
      some (launcher_main allEnabledSvc).calls ∧
    ((build_side_project_graph allEnabledSvc constLLM "2025-01-01 00:00").invoke
        sampleInitialState).map (fun o => o.calls.length) = some 3 ∧
    (launcher_main allEnabledSvc).calls = [] ∧
    ((build_side_project_graph allEnabledSvc constLLM "2025-01-01 00:00").invoke
        sampleInitialState).map (fun o => o.writes.length) = some 4 ∧
    (launcher_main allEnabledSvc).writes = [] :=
  ⟨by decide, by decide, rfl, by decide, rfl⟩

/-- C1, amended: for every initial PipelineState and every behaviour of
the external services, running the orchestration via direct sequential
calls to the four node functions (`idea_validator_node`,
`landing_page_writer_node`, `tech_stack_advisor_node`,
`save_outputs_node`) and running it via the four-node linear graph built
by `build_side_project_graph` produce identical observable behaviour: the
same final state, the same model-service invocations and the same file
writes. -/
theorem direct_composition_equals_graph_run (svc : ConfigService) (llm : ModelService)
    (ts : String) (st : SideProjectState) :
    (build_side_project_graph svc llm ts).invoke st =
      some (runPipelineDirect svc llm ts st) :=
  invoke_eq_runPipelineDirect svc llm ts st

/-- C2: each stage function stores, in its designated output field, the
model response to the fetched instructions (as system prompt) paired with
its fixed one-line user prompt when the fetched config is enabled, and
the literal `"Config not enabled"` when it is disabled; and its model
invocations are exactly that one call when enabled and none when
disabled. -/
theorem stage_nodes_enabled_disabled_behaviour (svc : ConfigService) (llm : ModelService)
    (st : SideProjectState) :
    ((idea_validator_node svc llm st).state.idea_validation =
      (if (get_agent_config svc "idea-validator" (build_context st.user_id [])
            [("idea", st.idea), ("target_audience", st.target_audience),
             ("problem_statement", st.problem_statement)]).enabled then
        llm { modelName := (get_agent_config svc "idea-validator" (build_context st.user_id [])
                [("idea", st.idea), ("target_audience", st.target_audience),
                 ("problem_statement", st.problem_statement)]).modelName,
              systemPrompt := (get_agent_config svc "idea-validator" (build_context st.user_id [])
                [("idea", st.idea), ("target_audience", st.target_audience),
                 ("problem_statement", st.problem_statement)]).instructions,
              userPrompt := "Please validate this idea and provide your analysis." }
      else "Config not enabled") ∧
    (idea_validator_node svc llm st).calls =
      (if (get_agent_config svc "idea-validator" (build_context st.user_id [])
            [("idea", st.idea), ("target_audience", st.target_audience),
             ("problem_statement", st.problem_statement)]).enabled then
        [{ modelName := (get_agent_config svc "idea-validator" (build_context st.user_id [])
              [("idea", st.idea), ("target_audience", st.target_audience),
               ("problem_statement", st.problem_statement)]).modelName,
           systemPrompt := (get_agent_config svc "idea-validator" (build_context st.user_id [])
              [("idea", st.idea), ("target_audience", st.target_audience),
               ("problem_statement", st.problem_statement)]).instructions,
           userPrompt := "Please validate this idea and provide your analysis." }]
      else [])) ∧
    ((landing_page_writer_node svc llm st).state.landing_page_copy =
      (if (get_agent_config svc "landing-page-writer" (build_context st.user_id [])
            [("idea", st.idea), ("target_audience", st.target_audience),
             ("unique_value_prop", st.unique_value_prop)]).enabled then
        llm { modelName := (get_agent_config svc "landing-page-writer" (build_context st.user_id [])
                [("idea", st.idea), ("target_audience", st.target_audience),
                 ("unique_value_prop", st.unique_value_prop)]).modelName,
              systemPrompt := (get_agent_config svc "landing-page-writer" (build_context st.user_id [])
                [("idea", st.idea), ("target_audience", st.target_audience),
                 ("unique_value_prop", st.unique_value_prop)]).instructions,
              userPrompt := "Please write the landing page copy." }
      else "Config not enabled") ∧
    (landing_page_writer_node svc llm st).calls =
      (if (get_agent_config svc "landing-page-writer" (build_context st.user_id [])
            [("idea", st.idea), ("target_audience", st.target_audience),
             ("unique_value_prop", st.unique_value_prop)]).enabled then
        [{ modelName := (get_agent_config svc "landing-page-writer" (build_context st.user_id [])
              [("idea", st.idea), ("target_audience", st.target_audience),
               ("unique_value_prop", st.unique_value_prop)]).modelName,
           systemPrompt := (get_agent_config svc "landing-page-writer" (build_context st.user_id [])
              [("idea", st.idea), ("target_audience", st.target_audience),
               ("unique_value_prop", st.unique_value_prop)]).instructions,
           userPrompt := "Please write the landing page copy." }]
      else [])) ∧
    ((tech_stack_advisor_node svc llm st).state.tech_stack =
      (if (get_agent_config svc "tech-stack-advisor" (build_context st.user_id [])
            [("expected_users", st.expected_users), ("budget", st.budget),
             ("team_expertise", st.team_expertise)]).enabled then
        llm { modelName := (get_agent_config svc "tech-stack-advisor" (build_context st.user_id [])
                [("expected_users", st.expected_users), ("budget", st.budget),
                 ("team_expertise", st.team_expertise)]).modelName,
              systemPrompt := (get_agent_config svc "tech-stack-advisor" (build_context st.user_id [])
                [("expected_users", st.expected_users), ("budget", st.budget),
                 ("team_expertise", st.team_expertise)]).instructions,
              userPrompt := "Please recommend a tech stack." }
      else "Config not enabled") ∧
    (tech_stack_advisor_node svc llm st).calls =
      (if (get_agent_config svc "tech-stack-advisor" (build_context st.user_id [])
            [("expected_users", st.expected_users), ("budget", st.budget),
             ("team_expertise", st.team_expertise)]).enabled then
        [{ modelName := (get_agent_config svc "tech-stack-advisor" (build_context st.user_id [])
              [("expected_users", st.expected_users), ("budget", st.budget),
               ("team_expertise", st.team_expertise)]).modelName,
           systemPrompt := (get_agent_config svc "tech-stack-advisor" (build_context st.user_id [])
              [("expected_users", st.expected_users), ("budget", st.budget),
               ("team_expertise", st.team_expertise)]).instructions,
           userPrompt := "Please recommend a tech stack." }]
      else [])) := by
  refine ⟨⟨?_, ?_⟩, ⟨?_, ?_⟩, ⟨?_, ?_⟩⟩ <;>
    · simp only [idea_validator_node, landing_page_writer_node, tech_stack_advisor_node,
        get_agent_config]
      split <;> rfl

/-- C3: starting from the state built by `get_user_input`, the three
output fields all start empty, each is changed only by its own stage in
pipeline order (`idea_validation` by stage 1, `landing_page_copy` by
stage 2, `tech_stack` by stage 3), each later stage preserves it, and the
save node changes nothing — so each field is assigned at most once over
the whole run, by exactly one stage, in pipeline order. -/
theorem output_fields_written_once_in_order (svc : ConfigService) (llm : ModelService)
    (rI rTA rPS rUVP rEU rB rTE ts tsn : String) :
    (get_user_input rI rTA rPS rUVP rEU rB rTE ts).idea_validation = "" ∧
    (get_user_input rI rTA rPS rUVP rEU rB rTE ts).landing_page_copy = "" ∧
    (get_user_input rI rTA rPS rUVP rEU rB rTE ts).tech_stack = "" ∧
    (idea_validator_node svc llm
      (get_user_input rI rTA rPS rUVP rEU rB rTE ts)).state.landing_page_copy = "" ∧
    (idea_validator_node svc llm
      (get_user_input rI rTA rPS rUVP rEU rB rTE ts)).state.tech_stack = "" ∧
    (landing_page_writer_node svc llm (idea_validator_node svc llm
      (get_user_input rI rTA rPS rUVP rEU rB rTE ts)).state).state.idea_validation =
      (idea_validator_node svc llm
        (get_user_input rI rTA rPS rUVP rEU rB rTE ts)).state.idea_validation ∧
    (landing_page_writer_node svc llm (idea_validator_node svc llm
      (get_user_input rI rTA rPS rUVP rEU rB rTE ts)).state).state.tech_stack = "" ∧
    (tech_stack_advisor_node svc llm (landing_page_writer_node svc llm
      (idea_validator_node svc llm
        (get_user_input rI rTA rPS rUVP rEU rB rTE ts)).state).state).state.idea_validation =
      (idea_validator_node svc llm
        (get_user_input rI rTA rPS rUVP rEU rB rTE ts)).state.idea_validation ∧
    (tech_stack_advisor_node svc llm (landing_page_writer_node svc llm
      (idea_validator_node svc llm
        (get_user_input rI rTA rPS rUVP rEU rB rTE ts)).state).state).state.landing_page_copy =
      (landing_page_writer_node svc llm (idea_validator_node svc llm
        (get_user_input rI rTA rPS rUVP rEU rB rTE ts)).state).state.landing_page_copy ∧
    (save_outputs_node tsn (tech_stack_advisor_node svc llm (landing_page_writer_node svc llm
      (idea_validator_node svc llm
        (get_user_input rI rTA rPS rUVP rEU rB rTE ts)).state).state).state).state =
      (tech_stack_advisor_node svc llm (landing_page_writer_node svc llm
        (idea_validator_node svc llm
          (get_user_input rI rTA rPS rUVP rEU rB rTE ts)).state).state).state := by
  obtain ⟨v1, h1⟩ := idea_validator_state_shape svc llm
    (get_user_input rI rTA rPS rUVP rEU rB rTE ts)
  obtain ⟨v2, h2⟩ := landing_page_writer_state_shape svc llm
    (idea_validator_node svc llm (get_user_input rI rTA rPS rUVP rEU rB rTE ts)).state
  obtain ⟨v3, h3⟩ := tech_stack_advisor_state_shape svc llm
    (landing_page_writer_node svc llm
      (idea_validator_node svc llm (get_user_input rI rTA rPS rUVP rEU rB rTE ts)).state).state
  refine ⟨rfl, rfl, rfl, ?_, ?_, ?_, ?_, ?_, ?_, rfl⟩
  · rw [h1]; rfl
  · rw [h1]; rfl
  · rw [h2]
  · rw [h2, h1]; rfl
  · rw [h3, h2]
  · rw [h3]

/-- C4: a run of `save_outputs_node` writes exactly four files, named
exactly `01-idea-validation.md`, `02-landing-page.md`, `03-tech-stack.md`
and `00-summary.md` (pairwise distinct, so no other file), all inside the
state's output directory. -/
theorem save_outputs_writes_exactly_four_files (ts : String) (st : SideProjectState) :
    (save_outputs_node ts st).writes.map FileWrite.name =
      ["01-idea-validation.md", "02-landing-page.md", "03-tech-stack.md", "00-summary.md"] ∧
    ((save_outputs_node ts st).writes.map FileWrite.name).Nodup ∧
    (save_outputs_node ts st).writes.length = 4 ∧
    ((save_outputs_node ts st).writes.all (fun w => w.dir == st.output_dir)) = true := by
  refine ⟨rfl, ?_, rfl, ?_⟩
  · rw [show (save_outputs_node ts st).writes.map FileWrite.name =
      ["01-idea-validation.md", "02-landing-page.md", "03-tech-stack.md", "00-summary.md"]
      from rfl]
    decide
  · simp [save_outputs_node, List.all]

/-- C5: the body written to `00-summary.md` (the fourth write of
`save_outputs_node`) is a deterministic function of exactly the seven
input fields and the run timestamp: two states that agree on those seven
fields, rendered with equal timestamps, yield byte-identical summary
bodies, whatever their other fields hold. -/
theorem summary_depends_only_on_inputs_and_timestamp (s t : SideProjectState)
    (ts₁ ts₂ : String)
    (h1 : s.idea = t.idea) (h2 : s.target_audience = t.target_audience)
    (h3 : s.problem_statement = t.problem_statement)
    (h4 : s.unique_value_prop = t.unique_value_prop)
    (h5 : s.expected_users = t.expected_users) (h6 : s.budget = t.budget)
    (h7 : s.team_expertise = t.team_expertise) (h8 : ts₁ = ts₂) :
    ((save_outputs_node ts₁ s).writes.map FileWrite.content)[3]? =
      ((save_outputs_node ts₂ t).writes.map FileWrite.content)[3]? := by
  simp [save_outputs_node, summaryText, h1, h2, h3, h4, h5, h6, h7, h8]

/-- C5 witness: two concrete states sharing the seven input fields but
differing in `user_id`, all three output fields and `output_dir` produce
the same summary body for the same timestamp. -/
theorem summary_depends_only_on_inputs_witness :
    ((save_outputs_node "2025-01-01 00:00" sampleInitialState).writes.map
        FileWrite.content)[3]? =
      ((save_outputs_node "2025-01-01 00:00"
          { sampleInitialState with
            user_id := "someone-else"
            idea_validation := "long analysis"
            landing_page_copy := "copy"
            tech_stack := "stack"
            output_dir := "elsewhere" }).writes.map
        FileWrite.content)[3]? :=
  summary_depends_only_on_inputs_and_timestamp sampleInitialState
    { sampleInitialState with
      user_id := "someone-else"
      idea_validation := "long analysis"
      landing_page_copy := "copy"
      tech_stack := "stack"
      output_dir := "elsewhere" }
    "2025-01-01 00:00" "2025-01-01 00:00" rfl rfl rfl rfl rfl rfl rfl rfl

/-- C6: when the config service returns enabled=false for all three named
configurations, the three stages leave all three output fields equal to
the literal `"Config not enabled"` and the whole run makes zero
model-service calls. -/
theorem all_disabled_placeholder_and_zero_calls (svc : ConfigService) (llm : ModelService)
    (ts : String) (st : SideProjectState)
    (h1 : ∀ ctx vars, (svc "idea-validator" ctx vars).enabled = false)
    (h2 : ∀ ctx vars, (svc "landing-page-writer" ctx vars).enabled = false)
    (h3 : ∀ ctx vars, (svc "tech-stack-advisor" ctx vars).enabled = false) :
    (runPipelineDirect svc llm ts st).state.idea_validation = "Config not enabled" ∧
    (runPipelineDirect svc llm ts st).state.landing_page_copy = "Config not enabled" ∧
    (runPipelineDirect svc llm ts st).state.tech_stack = "Config not enabled" ∧
    (runPipelineDirect svc llm ts st).calls = [] := by
  simp [runPipelineDirect, idea_validator_node, landing_page_writer_node,
    tech_stack_advisor_node, save_outputs_node, get_agent_config, h1, h2, h3]

/-- C6 witness: the always-disabled service on the sample initial state. -/
theorem all_disabled_placeholder_witness :
    (runPipelineDirect allDisabledSvc constLLM "t" sampleInitialState).state.idea_validation =
      "Config not enabled" ∧
    (runPipelineDirect allDisabledSvc constLLM "t" sampleInitialState).state.landing_page_copy =
      "Config not enabled" ∧
    (runPipelineDirect allDisabledSvc constLLM "t" sampleInitialState).state.tech_stack =
      "Config not enabled" ∧
    (runPipelineDirect allDisabledSvc constLLM "t" sampleInitialState).calls = [] :=
  all_disabled_placeholder_and_zero_calls allDisabledSvc constLLM "t" sampleInitialState
    (fun _ _ => rfl) (fun _ _ => rfl) (fun _ _ => rfl)

/-- C7: `build_context` is total with no error path — for every
identifier and attribute set it returns the context carrying exactly that
key and those attributes — and the only validity requirement is the
SDK-enforced one that the identifier be non-empty: the built context is
valid precisely when the identifier is non-empty. -/
theorem build_context_total_and_validity (user_id : String)
    (attributes : List (String × String)) :
    (build_context user_id attributes).key = user_id ∧
    (build_context user_id attributes).attributes = attributes ∧
    (build_context user_id attributes).valid = !user_id.isEmpty :=
  ⟨rfl, rfl, rfl⟩

/-- C8: each stage function modifies only its single designated output
field — the returned state is the input state with at most that one field
rewritten — and `save_outputs_node` returns the state completely
unchanged. -/
theorem stage_nodes_frame_property (svc : ConfigService) (llm : ModelService)
    (ts : String) (st : SideProjectState) :
    (idea_validator_node svc llm st).state =
      { st with idea_validation := (idea_validator_node svc llm st).state.idea_validation } ∧
    (landing_page_writer_node svc llm st).state =
      { st with landing_page_copy :=
          (landing_page_writer_node svc llm st).state.landing_page_copy } ∧
    (tech_stack_advisor_node svc llm st).state =
      { st with tech_stack := (tech_stack_advisor_node svc llm st).state.tech_stack } ∧
    (save_outputs_node ts st).state = st := by
  refine ⟨?_, ?_, ?_, rfl⟩
  · obtain ⟨v, hv⟩ := idea_validator_state_shape svc llm st
    rw [hv]
  · obtain ⟨v, hv⟩ := landing_page_writer_state_shape svc llm st
    rw [hv]
  · obtain ⟨v, hv⟩ := tech_stack_advisor_state_shape svc llm st
    rw [hv]

/-- C9: on the sample initial state, with all three named configurations
enabled and a model service returning the fixed non-empty string `r`, the
graph run terminates (invoke returns a result) and its first file write
is `01-idea-validation.md` in the run's output directory with `r`
immediately following the `# Idea Validation` heading line and its blank
separator. -/
theorem sample_run_idea_validation_file (svc : ConfigService) (llm : ModelService)
    (r tsn : String)
    (h1 : ∀ ctx vars, (svc "idea-validator" ctx vars).enabled = true)
    (h2 : ∀ ctx vars, (svc "landing-page-writer" ctx vars).enabled = true)
    (h3 : ∀ ctx vars, (svc "tech-stack-advisor" ctx vars).enabled = true)
    (hl : ∀ mc, llm mc = r) (_hr : r ≠ "") :
    ((build_side_project_graph svc llm tsn).invoke sampleInitialState).isSome = true ∧
    ((build_side_project_graph svc llm tsn).invoke sampleInitialState).bind
        (fun o => o.writes[0]?) =
      some { dir := sampleInitialState.output_dir, name := "01-idea-validation.md",
             content := "# Idea Validation\n\n" ++ r } := by
  rw [invoke_eq_runPipelineDirect]
  refine ⟨rfl, ?_⟩
  simp [runPipelineDirect, idea_validator_node, landing_page_writer_node,
    tech_stack_advisor_node, save_outputs_node, get_agent_config, h1, h2, h3, hl]

/-- C9 witness: the always-enabled service and the constant model answer
`"ok"` on the sample initial state. -/
theorem sample_run_idea_validation_witness :
    ((build_side_project_graph allEnabledSvc constLLM "t").invoke
        sampleInitialState).isSome = true ∧
    ((build_side_project_graph allEnabledSvc constLLM "t").invoke sampleInitialState).bind
        (fun o => o.writes[0]?) =
      some { dir := sampleInitialState.output_dir, name := "01-idea-validation.md",
             content := "# Idea Validation\n\n" ++ "ok" } :=
  sample_run_idea_validation_file allEnabledSvc constLLM "ok" "t"
    (fun _ _ => rfl) (fun _ _ => rfl) (fun _ _ => rfl) (fun _ => rfl) (by decide)

/-- C10: the folder slug computed by `get_user_input` from the entered
idea has length at most 30, consists only of hyphens and alphanumeric
characters, the resulting `output_dir` always has the shape
`output/<slug>-<timestamp>`, and the slug of an empty idea is empty. -/
theorem folder_slug_properties (idea rI rTA rPS rUVP rEU rB rTE ts : String) :
    (makeFolderName idea).length ≤ 30 ∧
    ((makeFolderName idea).toList.all (fun c => pyIsAlnum c || c = '-')) = true ∧
    (get_user_input rI rTA rPS rUVP rEU rB rTE ts).output_dir =
      "output/" ++ makeFolderName rI.trim ++ "-" ++ ts ∧
    makeFolderName "" = "" := by
  refine ⟨?_, ?_, rfl, rfl⟩
  · show (List.filter (fun c => pyIsAlnum c || c = '-')
        (List.map (fun c => if c = ' ' || c = '/' then '-' else c)
          (List.take 30 (List.map Char.toLower idea.toList)))).length ≤ 30
    calc (List.filter (fun c => pyIsAlnum c || c = '-')
        (List.map (fun c => if c = ' ' || c = '/' then '-' else c)
          (List.take 30 (List.map Char.toLower idea.toList)))).length
        ≤ (List.map (fun c => if c = ' ' || c = '/' then '-' else c)
            (List.take 30 (List.map Char.toLower idea.toList))).length :=
          List.length_filter_le _ _
      _ = (List.take 30 (List.map Char.toLower idea.toList)).length :=
          List.length_map _ _
      _ ≤ 30 := List.length_take_le _ _
  · show ((List.filter (fun c => pyIsAlnum c || c = '-')
        (List.map (fun c => if c = ' ' || c = '/' then '-' else c)
          (List.take 30 (List.map Char.toLower idea.toList)))).all
        (fun c => pyIsAlnum c || c = '-')) = true
    rw [List.all_eq_true]
    intro c hc
    exact (List.mem_filter.mp hc).2

end SideProject
